import Mathlib

/-!
Verification of the python-xbee framing, command-table and dispatch layers.

The embedding follows the sources:
* `xbee/frame.py` — `APIFrame` with `checksum` and `verify` (bytes are
  modelled as `Nat` values; Python's `ord`/`chr` round-trip is the identity
  on the byte values the code manipulates, and `& 0xFF` is `&&& 255`).
* `xbee/zigbee.py` — the `api_commands` and `api_responses` tables,
  transcribed literally.
* The wire codec (`wrap`/`unwrap`) and the dispatch helper are not among
  the provided sources (only the dispatch tests are), so they are modelled
  from the specification, as marked on each definition.
-/

namespace XBee

/-- Embedding of `APIFrame` from `xbee/frame.py`: the frame stores the
unescaped binary data as a list of byte values. -/
structure APIFrame where
  data : List Nat
deriving DecidableEq

/-- Embedding of `APIFrame.checksum`: add all bytes of `data`, keep the low
byte (`& 0xFF`), and subtract the result from `0xFF`. -/
def APIFrame.checksum (f : APIFrame) : Nat :=
  let total := f.data.foldl (fun t b => t + b) 0
  let total := total &&& 0xFF
  0xFF - total

/-- Embedding of `APIFrame.verify`: add all bytes of `data` plus the given
checksum byte, keep the low bits (`&= 0xFF`), and compare with `0xFF`. -/
def APIFrame.verify (f : APIFrame) (chksum : Nat) : Bool :=
  let total := f.data.foldl (fun t b => t + b) 0
  let total := total + chksum
  let total := total &&& 0xFF
  total == 0xFF

/-- State-passing form of `APIFrame.checksum`: the method body only reads
`self.data` and mutates the local `total`, so the returned frame state is
the input frame. -/
def APIFrame.checksumRun (f : APIFrame) : Nat × APIFrame :=
  let total := f.data.foldl (fun t b => t + b) 0
  let total := total &&& 0xFF
  (0xFF - total, f)

/-- State-passing form of `APIFrame.verify`: the method body only reads
`self.data` and mutates the local `total`, so the returned frame state is
the input frame. -/
def APIFrame.verifyRun (f : APIFrame) (chksum : Nat) : Bool × APIFrame :=
  let total := f.data.foldl (fun t b => t + b) 0
  let total := total + chksum
  let total := total &&& 0xFF
  (total == 0xFF, f)

/-- Modelled from the spec: the wire start delimiter (FrameCodec is not
among the provided sources; spec section 4.2 describes the envelope). -/
def START_BYTE : Nat := 0x7E

/-- Modelled from the spec: the escape marker byte. -/
def ESCAPE_BYTE : Nat := 0x7D

/-- Modelled from the spec: XON flow-control byte, reserved on the wire. -/
def XON_BYTE : Nat := 0x11

/-- Modelled from the spec: XOFF flow-control byte, reserved on the wire. -/
def XOFF_BYTE : Nat := 0x13

/-- Modelled from the spec: constant XORed onto an escaped byte. -/
def XOR_CONST : Nat := 0x20

/-- Modelled from the spec: the reserved control bytes that must be escaped
when escaping mode is active (delimiter, escape marker, two flow-control
bytes). -/
def isReserved (b : Nat) : Bool :=
  b == START_BYTE || b == ESCAPE_BYTE || b == XON_BYTE || b == XOFF_BYTE

/-- Modelled from the spec: escaping one byte — a reserved byte becomes the
escape marker followed by the byte XORed with the fixed constant; any other
byte is emitted unchanged. -/
def escapeByte (b : Nat) : List Nat :=
  if isReserved b then [ESCAPE_BYTE, b ^^^ XOR_CONST] else [b]

/-- Modelled from the spec: escaping a byte region, byte by byte. -/
def escapeBytes : List Nat → List Nat
  | [] => []
  | b :: rest => escapeByte b ++ escapeBytes rest

/-- Modelled from the spec: read `n` logical bytes from an escaped stream,
un-escaping on the fly (the escape marker consumes the following byte and
XORs it with the fixed constant); returns the logical bytes and the rest of
the stream, or `none` if the stream ends first. -/
def readEscaped : Nat → List Nat → Option (List Nat × List Nat)
  | 0, s => some ([], s)
  | _ + 1, [] => none
  | n + 1, b :: rest =>
    if b == ESCAPE_BYTE then
      match rest with
      | [] => none
      | x :: rest2 =>
        (readEscaped n rest2).map (fun p => ((x ^^^ XOR_CONST) :: p.1, p.2))
    else
      (readEscaped n rest).map (fun p => (b :: p.1, p.2))

/-- Modelled from the spec: read `n` raw bytes from an unescaped stream. -/
def readRaw : Nat → List Nat → Option (List Nat × List Nat)
  | 0, s => some ([], s)
  | _ + 1, [] => none
  | n + 1, b :: rest => (readRaw n rest).map (fun p => (b :: p.1, p.2))

/-- Modelled from the spec: read `n` logical bytes, honouring the escaping
mode. -/
def readLogical (escaped : Bool) : Nat → List Nat → Option (List Nat × List Nat) :=
  if escaped then readEscaped else readRaw

/-- Modelled from the spec: the 2-byte big-endian length field for a payload
of `n` bytes. -/
def lenBytes (n : Nat) : List Nat := [n / 256, n % 256]

/-- Modelled from the spec: `wrap` emits the delimiter, the 2-byte
big-endian payload length, the payload and the checksum byte (computed by
the checksum codec); when escaping mode is active the length/payload/checksum
region is escaped, the delimiter never. -/
def wrap (escaped : Bool) (p : List Nat) : List Nat :=
  let body := lenBytes p.length ++ p ++ [(APIFrame.mk p).checksum]
  START_BYTE :: (if escaped then escapeBytes body else body)

/-- Result of `unwrap`: the spec's `payload | NeedMoreData | ChecksumError`.
`invalid` is reached only on streams a conforming writer never produces
(missing delimiter); the spec leaves that case to caller resynchronisation. -/
inductive UnwrapResult where
  | payload (p : List Nat)
  | needMoreData
  | checksumError
  | invalid
deriving DecidableEq

/-- Modelled from the spec: `unwrap` consumes one delimiter, reads the
possibly-escaped 2-byte length, reads that many logical bytes of payload,
reads one checksum byte and verifies it; an incomplete stream yields
`needMoreData`, a failed verification `checksumError`. -/
def unwrap (escaped : Bool) (stream : List Nat) : UnwrapResult :=
  match stream with
  | [] => UnwrapResult.needMoreData
  | d :: rest =>
    if d == START_BYTE then
      match readLogical escaped 2 rest with
      | some ([hi, lo], rest2) =>
        match readLogical escaped (hi * 256 + lo) rest2 with
        | some (p, rest3) =>
          match readLogical escaped 1 rest3 with
          | some ([c], _) =>
            if (APIFrame.mk p).verify c then UnwrapResult.payload p
            else UnwrapResult.checksumError
          | some _ => UnwrapResult.invalid
          | none => UnwrapResult.needMoreData
        | none => UnwrapResult.needMoreData
      | some _ => UnwrapResult.invalid
      | none => UnwrapResult.needMoreData
    else UnwrapResult.invalid

/-- Modelled from the spec: one dispatch registration — a unique name and a
pure predicate over decoded messages (the Dispatch helper module is not among
the provided sources, only its tests are; spec sections 3 and 4.5 describe
the registry). Invoking the registered callback is observed through the
invocation event `(name, message)` that `dispatchRound` records for it. -/
structure Registration (Msg : Type) where
  name : String
  pred : Msg → Bool

/-- Modelled from the spec: one dispatch round over one decoded message —
evaluate each registration's predicate in registration order and invoke the
callback of every registration whose predicate is true, as the list of
invocation events `(registration name, message)`. -/
def dispatchRound {Msg : Type} (registry : List (Registration Msg)) (msg : Msg) :
    List (String × Msg) :=
  (registry.filter (fun r => r.pred msg)).map (fun r => (r.name, msg))

/-- Embedding of a `FieldSpec` row of `ZigBee.api_commands` from
`xbee/zigbee.py`: field name, byte length (`none` encodes Python's
`'len': None`, "consume remaining bytes") and optional default bytes. -/
structure FieldSpec where
  name : String
  len : Option Nat
  default : Option (List Nat)
deriving DecidableEq

/-- Embedding of a field row of a `ZigBee.api_responses` structure:
field name and byte length (`none` encodes `'len': None`). -/
structure RespField where
  name : String
  len : Option Nat
deriving DecidableEq

/-- Embedding of one `ZigBee.api_responses` entry: response name, its
`structure` field list, and the optional `parse_as_io_samples` field name. -/
structure ResponseSpec where
  name : String
  struct : List RespField
  parse_as_io_samples : Option String
deriving DecidableEq

/-- The `"at"` entry of `ZigBee.api_commands`. -/
def at_command : String × List FieldSpec :=
  ("at",
   [⟨"id", some 1, some [0x08]⟩,
    ⟨"frame_id", some 1, some [0x01]⟩,
    ⟨"command", some 2, none⟩,
    ⟨"parameter", none, none⟩])

/-- Embedding of `ZigBee.api_commands` from `xbee/zigbee.py`, transcribed
entry by entry (`struct.pack` of `>Q` on 0 is eight zero bytes). -/
def api_commands : List (String × List FieldSpec) :=
  [at_command,
   ("queued_at",
    [⟨"id", some 1, some [0x09]⟩,
     ⟨"frame_id", some 1, some [0x01]⟩,
     ⟨"command", some 2, none⟩,
     ⟨"parameter", none, none⟩]),
   ("remote_at",
    [⟨"id", some 1, some [0x17]⟩,
     ⟨"frame_id", some 1, some [0x00]⟩,
     ⟨"dest_addr_long", some 8, some [0, 0, 0, 0, 0, 0, 0, 0]⟩,
     ⟨"dest_addr", some 2, some [0xFF, 0xFE]⟩,
     ⟨"options", some 1, some [0x02]⟩,
     ⟨"command", some 2, none⟩,
     ⟨"parameter", none, none⟩]),
   ("tx",
    [⟨"id", some 1, some [0x10]⟩,
     ⟨"frame_id", some 1, some [0x01]⟩,
     ⟨"dest_addr_long", some 8, none⟩,
     ⟨"dest_addr", some 2, none⟩,
     ⟨"broadcast_radius", some 1, some [0x00]⟩,
     ⟨"options", some 1, some [0x00]⟩,
     ⟨"data", none, none⟩]),
   ("tx_explicit",
    [⟨"id", some 1, some [0x11]⟩,
     ⟨"frame_id", some 1, some [0x00]⟩,
     ⟨"dest_addr_long", some 8, none⟩,
     ⟨"dest_addr", some 2, none⟩,
     ⟨"src_endpoint", some 1, none⟩,
     ⟨"dest_endpoint", some 1, none⟩,
     ⟨"cluster", some 1, none⟩,
     ⟨"profile", some 1, none⟩,
     ⟨"broadcast_radius", some 1, some [0x00]⟩,
     ⟨"options", some 1, some [0x00]⟩,
     ⟨"data", none, none⟩])]

/-- Embedding of `ZigBee.api_responses` from `xbee/zigbee.py`, transcribed
entry by entry and keyed by the response id byte. -/
def api_responses : List (Nat × ResponseSpec) :=
  [(0x90,
    ⟨"rx",
     [⟨"source_addr_long", some 8⟩,
      ⟨"source_addr", some 2⟩,
      ⟨"options", some 1⟩,
      ⟨"rf_data", none⟩], none⟩),
   (0x91,
    ⟨"rx_explicit",
     [⟨"source_addr_long", some 8⟩,
      ⟨"source_addr", some 2⟩,
      ⟨"source_endpoint", some 1⟩,
      ⟨"dest_endpoint", some 1⟩,
      ⟨"cluster", some 2⟩,
      ⟨"profile", some 2⟩,
      ⟨"options", some 1⟩,
      ⟨"rf_data", none⟩], none⟩),
   (0x92,
    ⟨"rx_io_data_long_addr",
     [⟨"source_addr_long", some 8⟩,
      ⟨"source_addr", some 2⟩,
      ⟨"options", some 1⟩,
      ⟨"samples", none⟩], some "samples"⟩),
   (0x8b,
    ⟨"tx_status",
     [⟨"frame_id", some 1⟩,
      ⟨"dest_addr", some 2⟩,
      ⟨"retries", some 1⟩,
      ⟨"deliver_status", some 1⟩,
      ⟨"discover_status", some 1⟩], none⟩),
   (0x8a,
    ⟨"status",
     [⟨"status", some 1⟩], none⟩),
   (0x88,
    ⟨"at_response",
     [⟨"frame_id", some 1⟩,
      ⟨"command", some 2⟩,
      ⟨"status", some 1⟩,
      ⟨"parameter", none⟩], none⟩),
   (0x97,
    ⟨"remote_at_response",
     [⟨"frame_id", some 1⟩,
      ⟨"source_addr_long", some 8⟩,
      ⟨"source_addr", some 2⟩,
      ⟨"command", some 2⟩,
      ⟨"status", some 1⟩,
      ⟨"parameter", none⟩], none⟩),
   (0x95,
    ⟨"node_id_indicator",
     [⟨"sender_addr_long", some 8⟩,
      ⟨"sender_addr", some 2⟩,
      ⟨"options", some 1⟩,
      ⟨"source_addr", some 2⟩,
      ⟨"source_addr_long", some 8⟩,
      ⟨"node_id", some 0⟩,
      ⟨"parent_source_addr", some 2⟩,
      ⟨"device_type", some 1⟩,
      ⟨"source_event", some 1⟩,
      ⟨"digi_profile_id", some 2⟩,
      ⟨"manufacturer_id", some 2⟩], none⟩)]

/-- Masking with `0xFF` is reduction modulo 256. -/
lemma land255_eq_mod (x : Nat) : x &&& 255 = x % 256 :=
  Nat.and_pow_two_sub_one_eq_mod x 8

/-- Accumulating left fold of addition computes the sum. -/
lemma foldl_add_eq_sum (l : List Nat) :
    ∀ a : Nat, l.foldl (fun t b => t + b) a = a + l.sum := by
  induction l with
  | nil => intro a; simp
  | cons b t ih =>
    intro a
    rw [List.foldl_cons, ih (a + b), List.sum_cons]
    omega

/-- Shared fact: a frame always verifies against its own checksum. -/
lemma verify_checksum_aux (d : List Nat) :
    (APIFrame.mk d).verify ((APIFrame.mk d).checksum) = true := by
  simp only [APIFrame.verify, APIFrame.checksum, beq_iff_eq,
    land255_eq_mod, foldl_add_eq_sum]
  omega

/-- Escaping distributes over append. -/
lemma escapeBytes_append (xs ys : List Nat) :
    escapeBytes (xs ++ ys) = escapeBytes xs ++ escapeBytes ys := by
  induction xs with
  | nil => simp [escapeBytes]
  | cons b t ih => simp [escapeBytes, ih]

/-- XOR with the escape constant is an involution. -/
lemma xor_const_involutive (b : Nat) : (b ^^^ XOR_CONST) ^^^ XOR_CONST = b := by
  simp [Nat.xor_assoc]

/-- Reading back an escaped region recovers the original bytes and leaves
the rest of the stream untouched. -/
lemma readEscaped_escapeBytes (xs : List Nat) :
    ∀ s : List Nat, readEscaped xs.length (escapeBytes xs ++ s) = some (xs, s) := by
  induction xs with
  | nil => intro s; simp [escapeBytes, readEscaped]
  | cons b t ih =>
    intro s
    by_cases hb : isReserved b = true
    · have hlen : escapeBytes (b :: t) ++ s
          = ESCAPE_BYTE :: (b ^^^ XOR_CONST) :: (escapeBytes t ++ s) := by
        simp [escapeBytes, escapeByte, hb]
      rw [List.length_cons, hlen]
      simp [readEscaped, ih, xor_const_involutive]
    · have hne : b ≠ ESCAPE_BYTE := by
        intro h
        apply hb
        simp [isReserved, h]
      have hlen : escapeBytes (b :: t) ++ s = b :: (escapeBytes t ++ s) := by
        simp [escapeBytes, escapeByte, hb]
      rw [List.length_cons, hlen]
      simp [readEscaped, hne, ih]

/-- Reading back a raw region recovers the original bytes and leaves the
rest of the stream untouched. -/
lemma readRaw_append (xs : List Nat) :
    ∀ s : List Nat, readRaw xs.length (xs ++ s) = some (xs, s) := by
  induction xs with
  | nil => intro s; simp [readRaw]
  | cons b t ih => intro s; simp [readRaw, ih]

/-- The invocation events addressed to a given name in one dispatch round
are counted by the registrations carrying that name whose predicate holds. -/
lemma countP_dispatchRound {Msg : Type} (t : List (Registration Msg)) (msg : Msg)
    (nm : String) :
    (dispatchRound t msg).countP (fun e => e.1 == nm)
      = t.countP (fun x => (x.name == nm) && x.pred msg) := by
  simp [dispatchRound, List.countP_map, List.countP_filter, Function.comp_def]

/-- Among registrations with pairwise distinct names, the registrations
named like a member `r` whose predicate accepts the message number one when
`r`'s predicate does, zero otherwise. -/
lemma countP_name_pred {Msg : Type} (msg : Msg) :
    ∀ (t : List (Registration Msg)) (r : Registration Msg),
      (t.map Registration.name).Nodup → r ∈ t →
      t.countP (fun x => (x.name == r.name) && x.pred msg)
        = if r.pred msg then 1 else 0 := by
  intro t
  induction t with
  | nil => intro r _ hr; cases hr
  | cons a t ih =>
    intro r hnd hr
    rw [List.map_cons, List.nodup_cons] at hnd
    obtain ⟨ha, hnd2⟩ := hnd
    rw [List.countP_cons]
    rcases List.mem_cons.mp hr with rfl | hrt
    · have hz : t.countP (fun x => (x.name == r.name) && x.pred msg) = 0 := by
        rw [List.countP_eq_zero]
        intro x hx
        simp only [Bool.and_eq_true, beq_iff_eq, not_and]
        intro hname _
        exact ha (hname ▸ List.mem_map_of_mem Registration.name hx)
      rw [hz]
      simp
    · have hne : a.name ≠ r.name := fun h =>
        ha (h ▸ List.mem_map_of_mem Registration.name hrt)
      have hfa : ((a.name == r.name) && a.pred msg) = false := by
        simp [hne]
      rw [hfa, ih r hnd2 hrt]
      simp

/-- Characterisation of `unwrap` on a delimited stream whose length field,
payload and checksum reads all succeed. -/
lemma unwrap_cons {escaped : Bool} {rest rest2 p rest3 rest4 : List Nat}
    {hi lo c : Nat}
    (h2 : readLogical escaped 2 rest = some ([hi, lo], rest2))
    (hp : readLogical escaped (hi * 256 + lo) rest2 = some (p, rest3))
    (hc : readLogical escaped 1 rest3 = some ([c], rest4)) :
    unwrap escaped (START_BYTE :: rest)
      = if (APIFrame.mk p).verify c then UnwrapResult.payload p
        else UnwrapResult.checksumError := by
  simp [unwrap, h2, hp, hc]

/-- C1: for every byte sequence stored in a frame, verifying the frame
against its own computed checksum succeeds. -/
theorem verify_own_checksum (f : APIFrame) : f.verify f.checksum = true :=
  verify_checksum_aux f.data

/-- C2: the computed checksum of a payload is `0xFF` minus the low byte of
the sum of its bytes. -/
theorem checksum_eq_ff_sub_sum_mod (P : List Nat) :
    (APIFrame.mk P).checksum = 0xFF - P.sum % 256 := by
  simp only [APIFrame.checksum, land255_eq_mod, foldl_add_eq_sum]
  omega

/-- C3: verification succeeds exactly when the sum of the payload bytes and
the checksum byte, masked to the low byte, equals `0xFF`. -/
theorem verify_iff_masked_sum (P : List Nat) (c : Nat) :
    (APIFrame.mk P).verify c = true ↔ (P.sum + c) &&& 0xFF = 0xFF := by
  simp only [APIFrame.verify, beq_iff_eq, land255_eq_mod, foldl_add_eq_sum]
  omega

/-- C4: unwrapping the frame produced by wrapping a payload yields the
payload back, with escaping enabled and with it disabled. -/
theorem unwrap_wrap_roundtrip (esc : Bool) (P : List Nat)
    (hb : ∀ b ∈ P, b < 256) (hl : P.length < 65536) :
    unwrap esc (wrap esc P) = UnwrapResult.payload P := by
  have hmod : P.length / 256 * 256 + P.length % 256 = P.length := by omega
  cases esc with
  | false =>
    show unwrap false (START_BYTE ::
      ([P.length / 256, P.length % 256] ++ P ++ [(APIFrame.mk P).checksum]))
      = UnwrapResult.payload P
    have h2 : readLogical false 2
        ([P.length / 256, P.length % 256] ++ P ++ [(APIFrame.mk P).checksum])
        = some ([P.length / 256, P.length % 256],
            P ++ [(APIFrame.mk P).checksum]) := rfl
    have hp : readLogical false (P.length / 256 * 256 + P.length % 256)
        (P ++ [(APIFrame.mk P).checksum])
        = some (P, [(APIFrame.mk P).checksum]) := by
      rw [hmod]
      exact readRaw_append P [(APIFrame.mk P).checksum]
    have hc : readLogical false 1 [(APIFrame.mk P).checksum]
        = some ([(APIFrame.mk P).checksum], []) := rfl
    rw [unwrap_cons h2 hp hc, verify_checksum_aux P]
    simp
  | true =>
    show unwrap true (START_BYTE :: escapeBytes
      ([P.length / 256, P.length % 256] ++ P ++ [(APIFrame.mk P).checksum]))
      = UnwrapResult.payload P
    have hsplit : escapeBytes
        ([P.length / 256, P.length % 256] ++ P ++ [(APIFrame.mk P).checksum])
        = escapeBytes [P.length / 256, P.length % 256]
          ++ (escapeBytes P ++ escapeBytes [(APIFrame.mk P).checksum]) := by
      rw [List.append_assoc, escapeBytes_append, escapeBytes_append]
    have h2 : readLogical true 2
        (escapeBytes [P.length / 256, P.length % 256]
          ++ (escapeBytes P ++ escapeBytes [(APIFrame.mk P).checksum]))
        = some ([P.length / 256, P.length % 256],
            escapeBytes P ++ escapeBytes [(APIFrame.mk P).checksum]) :=
      readEscaped_escapeBytes [P.length / 256, P.length % 256] _
    have hp : readLogical true (P.length / 256 * 256 + P.length % 256)
        (escapeBytes P ++ escapeBytes [(APIFrame.mk P).checksum])
        = some (P, escapeBytes [(APIFrame.mk P).checksum]) := by
      rw [hmod]
      exact readEscaped_escapeBytes P _
    have hc : readLogical true 1 (escapeBytes [(APIFrame.mk P).checksum])
        = some ([(APIFrame.mk P).checksum], []) := by
      have h := readEscaped_escapeBytes [(APIFrame.mk P).checksum] []
      rw [List.append_nil] at h
      exact h
    rw [hsplit, unwrap_cons h2 hp hc, verify_checksum_aux P]
    simp

/-- C4 witness: the round trip at a concrete payload containing a reserved
byte, with escaping enabled. -/
theorem unwrap_wrap_roundtrip_witness :
    (∀ b ∈ [0x7E, 0x00], b < 256) ∧ ([0x7E, 0x00] : List Nat).length < 65536 ∧
    unwrap true (wrap true [0x7E, 0x00]) = UnwrapResult.payload [0x7E, 0x00] :=
  ⟨by decide, by decide,
   unwrap_wrap_roundtrip true [0x7E, 0x00] (by decide) (by decide)⟩

/-- C5: in one dispatch round over one decoded message, the callback of a
registration `r` (registry names pairwise distinct) receives exactly one
invocation event when `r`'s predicate accepts the message and none when it
rejects it, and every invocation event carries the dispatched message. -/
theorem dispatch_invoked_iff_pred {Msg : Type}
    (registry : List (Registration Msg)) (msg : Msg) (r : Registration Msg)
    (hnd : (registry.map Registration.name).Nodup) (hr : r ∈ registry) :
    ((dispatchRound registry msg).countP (fun e => e.1 == r.name)
        = if r.pred msg then 1 else 0)
    ∧ ∀ e ∈ dispatchRound registry msg, e.2 = msg := by
  refine ⟨?_, ?_⟩
  · rw [countP_dispatchRound]
    exact countP_name_pred msg registry r hnd hr
  · intro e he
    simp only [dispatchRound, List.mem_map, List.mem_filter] at he
    obtain ⟨x, -, rfl⟩ := he
    rfl

/-- A registry of three registrations whose predicates answer true, false
and true on every message. -/
def sampleRegistry : List (Registration Nat) :=
  [⟨"cb1", fun _ => true⟩, ⟨"cb2", fun _ => false⟩, ⟨"cb3", fun _ => true⟩]

/-- C5 witness: in the three-callback registry with predicates true, false,
true, the second callback receives no invocation event for the dispatched
message. -/
theorem dispatch_invoked_iff_pred_witness :
    ((dispatchRound sampleRegistry 7).countP (fun e => e.1 == "cb2") = 0)
    ∧ ∀ e ∈ dispatchRound sampleRegistry 7, e.2 = 7 :=
  dispatch_invoked_iff_pred sampleRegistry 7 ⟨"cb2", fun _ => false⟩
    (by decide) (by simp [sampleRegistry])

/-- C6: the checksum of the empty payload is `0xFF`, and a wrapped
zero-length payload is the delimiter, a zero length field and the checksum
byte `0xFF`, in both escaping modes. -/
theorem empty_payload_checksum_ff :
    (APIFrame.mk []).checksum = 0xFF
    ∧ ∀ esc : Bool, wrap esc [] = [START_BYTE, 0x00, 0x00, 0xFF] := by decide

/-- C7: every command-table entry starts with the fixed message-id field:
named `id`, one byte long, with a default value present. -/
theorem api_commands_first_field_id :
    ∀ e ∈ api_commands,
      e.2.head?.map FieldSpec.name = some "id"
      ∧ e.2.head?.map FieldSpec.len = some (some 1)
      ∧ e.2.head?.map (fun f => f.default.isSome) = some true := by decide

/-- C7 witness: the `"at"` command entry starts with the one-byte `id`
field carrying a default. -/
theorem api_commands_first_field_id_witness :
    at_command.2.head?.map FieldSpec.name = some "id"
    ∧ at_command.2.head?.map FieldSpec.len = some (some 1)
    ∧ at_command.2.head?.map (fun f => f.default.isSome) = some true :=
  api_commands_first_field_id at_command (by decide)

/-- C8: in every command-table entry and every response-table structure, a
field of "consume remaining bytes" length occurs only as the last field and
hence at most once. -/
theorem len_none_only_last :
    (∀ e ∈ api_commands, (∀ f ∈ e.2.dropLast, f.len ≠ none)
        ∧ e.2.countP (fun f => f.len == none) ≤ 1)
    ∧ (∀ e ∈ api_responses, (∀ f ∈ e.2.struct.dropLast, f.len ≠ none)
        ∧ e.2.struct.countP (fun f => f.len == none) ≤ 1) := by decide

/-- C8 witness: the non-final `frame_id` field of the `"at"` command entry
has a fixed length. -/
theorem len_none_only_last_witness :
    (⟨"frame_id", some 1, some [0x01]⟩ : FieldSpec).len ≠ none :=
  (len_none_only_last.1 at_command (by decide)).1
    ⟨"frame_id", some 1, some [0x01]⟩ (by decide)

/-- C9: for a payload and a checksum byte below 256, verification succeeds
exactly when the byte equals the computed checksum. -/
theorem verify_iff_eq_checksum (P : List Nat) (c : Nat) (hc : c < 256) :
    ((APIFrame.mk P).verify c = true ↔ c = (APIFrame.mk P).checksum) := by
  simp only [APIFrame.verify, APIFrame.checksum, beq_iff_eq,
    land255_eq_mod, foldl_add_eq_sum]
  omega

/-- C9 witness: on the payload `[1, 2]`, the byte 252 verifies and is the
computed checksum. -/
theorem verify_iff_eq_checksum_witness :
    252 < 256
    ∧ ((APIFrame.mk [1, 2]).verify 252 = true
        ↔ 252 = (APIFrame.mk [1, 2]).checksum) :=
  ⟨by decide, verify_iff_eq_checksum [1, 2] 252 (by decide)⟩

/-- C10: the state-passing forms of `checksum` and `verify` return the
frame with its stored data unchanged, and compute the same results as the
direct functions. -/
theorem checksum_verify_preserve_data (f : APIFrame) (c : Nat) :
    f.checksumRun.2.data = f.data ∧ (f.verifyRun c).2.data = f.data
    ∧ f.checksumRun.1 = f.checksum ∧ (f.verifyRun c).1 = f.verify c :=
  ⟨rfl, rfl, rfl, rfl⟩

end XBee
